import Mathlib

/-!
Verification development for `create_graph.py` (SuperSalcedo22/financial_graph).

The Python program reads a key/value configuration, builds a year-by-year
pension-fund projection with `decimal.Decimal` arithmetic (quantized to 20
fractional digits, `ROUND_HALF_UP`), rounds every column to 2 fractional
digits for the CSV export, and only afterwards clamps negative ending fund
values to zero for the chart.

The embedding has two layers:

* a rational-number layer (`ProjectionConfig`, `series`, `export_view`,
  `display_view`) that mirrors `AMR_Graph.create_dataframe` on the path where
  every numeric attribute is a Python `int` or `Decimal` — every `Decimal`
  value is an exact rational, and the explicit `quantize` calls of the source
  are modelled exactly.  The `decimal` module's global context precision
  (28 significant digits, applied when an *arithmetic operation's* exact
  result needs more digits) is not modelled: the model computes sums and
  products exactly, which agrees with CPython whenever intermediate values fit
  in 28 significant digits (fund values below 10^8 currency units at 20
  fractional digits).  `NaN` decimals (the `pd.isna` branch of
  `to_decimal_round`) are not representable in ℚ and do not arise in this
  pipeline.

* a dynamically-typed layer (`PyVal`, `AMR_Graph`, `run_script`) that mirrors
  the whole script: `validate_config`, the `AMR_Graph.__init__` parsing loop
  (comma stripping, `int(...)` vs `Decimal(...)` with only `ValueError`
  caught), the `/100` on the percentage attributes (Python true division:
  `int / int` is a binary *float*), and the dataframe construction with
  Python's mixed-type operator semantics (`Decimal * float` raises
  `TypeError`).  Floats carry their ideal rational payload purely to have a
  value; no theorem below depends on a float's numeric value, only on its
  type (IEEE-754 rounding is out of scope).
-/

namespace CreateGraph

/- Batteries marks the `Rat` field operations `@[irreducible]`; concrete
evaluation of the model (`decide` on specific configurations) needs them to
unfold. -/
attribute [local semireducible] Rat.add Rat.sub Rat.mul Rat.inv Rat.ofScientific

/-! ## Decimal rounding utility (source: `to_decimal_round`, lines 78-84)

Python's `Decimal.quantize(..., rounding=ROUND_HALF_UP)` rounds to the nearest
multiple of `10^-places`, ties away from zero. -/

/-- Round a rational to the nearest integer, ties away from zero
(`decimal.ROUND_HALF_UP`). -/
def roundHalfUp (x : ℚ) : ℤ :=
  if 0 ≤ x then ⌊x + 1 / 2⌋ else -⌊-x + 1 / 2⌋

/-- `Decimal(x).quantize(Decimal("1." + "0"*places), rounding=ROUND_HALF_UP)`:
quantize `x` to `places` fractional digits, round half up (away from zero). -/
def quantize (places : ℕ) (x : ℚ) : ℚ :=
  (roundHalfUp (x * 10 ^ places) : ℚ) / 10 ^ places

/-- `to_decimal_round(value)` with the default `decimal_places=20`, on the
non-`NaN` path (source lines 78-84). -/
def to_decimal_round (x : ℚ) : ℚ := quantize 20 x

/-- `x` is exactly representable with `p` fractional decimal digits ("a
decimal of scale `p`"): `x * 10^p` is an integer. -/
def IsDec (p : ℕ) (x : ℚ) : Prop := (x * 10 ^ p).den = 1

instance (p : ℕ) (x : ℚ) : Decidable (IsDec p x) :=
  inferInstanceAs (Decidable ((x * 10 ^ p).den = 1))

/-! ## Rational-number projection engine
(source: `AMR_Graph.create_dataframe`, lines 114-174, on the all-`Decimal`
path).  Field names follow the dataframe columns; the `pension_fund_value`
column of a row holds what the spec calls `starting_fund_value`. -/

/-- Typed projection parameters (the spec's `ProjectionConfig`): the numeric
attributes that `AMR_Graph.__init__` leaves on `self` when every value parses
as `int`/`Decimal`, with the percentage attributes already divided by 100. -/
structure ProjectionConfig where
  age : ℤ
  maximum_age : ℤ
  pension_fund_value : ℚ
  annual_income : ℚ
  pct_growth_above_inflation : ℚ
  pct_charges_above_inflation : ℚ
deriving DecidableEq

/-- One dataframe row (columns of source lines 122-128). -/
structure ProjectionRow where
  Age : ℤ
  pension_fund_value : ℚ
  projected_growth : ℚ
  charges : ℚ
  ending_fund_value : ℚ
deriving DecidableEq

/-- A valid configuration in the sense of spec §3: `maximum_age >= age`,
non-negative decimal amounts (amounts exactly representable at 20 fractional
digits, which is what parsing produces: `int`s, or `Decimal`s already
quantized to 20 places by `to_decimal_round` in `__init__`). -/
def ValidProjectionConfig (c : ProjectionConfig) : Prop :=
  c.age ≤ c.maximum_age ∧ 0 ≤ c.pension_fund_value ∧ 0 ≤ c.annual_income ∧
    IsDec 20 c.pension_fund_value ∧ IsDec 20 c.annual_income

instance (c : ProjectionConfig) : Decidable (ValidProjectionConfig c) := by
  unfold ValidProjectionConfig; infer_instance

/-- The first dataframe row (source lines 117-128).  Note the source quirk,
kept here: the displayed `pension_fund_value` cell is
`to_decimal_round(self.pension_fund_value)` (line 124), while the
`ending_fund_value` expression uses the raw `self.pension_fund_value`
(line 127). -/
def firstRow (c : ProjectionConfig) : ProjectionRow :=
  let initial_growth_value := to_decimal_round (c.pension_fund_value * c.pct_growth_above_inflation)
  let initial_charge_value := to_decimal_round (c.pension_fund_value * c.pct_charges_above_inflation)
  { Age := c.age
    pension_fund_value := to_decimal_round c.pension_fund_value
    projected_growth := initial_growth_value
    charges := initial_charge_value
    ending_fund_value := c.pension_fund_value + initial_growth_value - c.annual_income - initial_charge_value }

/-- The `for i in range(no_rows)` loop of source lines 137-154: `prev` is the
previous row's (unclamped, high-precision) `ending_fund_value` read back from
the dataframe at line 140, `i` the loop index, `fuel` the remaining number of
iterations. -/
def addRows (c : ProjectionConfig) (prev : ℚ) (i : ℕ) : ℕ → List ProjectionRow
  | 0 => []
  | fuel + 1 =>
    let projected_growth := to_decimal_round (prev * c.pct_growth_above_inflation)
    let projected_charge := to_decimal_round (prev * c.pct_charges_above_inflation)
    let ending := prev + projected_growth - c.annual_income - projected_charge
    { Age := c.age + i + 1
      pension_fund_value := prev
      projected_growth := projected_growth
      charges := projected_charge
      ending_fund_value := ending } :: addRows c ending (i + 1) fuel

/-- The full high-precision series: first row plus
`no_rows = maximum_age - age` loop iterations (`range` of a negative Python
int is empty, hence `Int.toNat`). -/
def series (c : ProjectionConfig) : List ProjectionRow :=
  let r0 := firstRow c
  r0 :: addRows c r0.ending_fund_value 0 (c.maximum_age - c.age).toNat

/-- The export view (source lines 156-161, what `df.to_csv` writes): every
cell quantized to 2 fractional digits, `ROUND_HALF_UP`.  The `Age` cell —
an integer — is unchanged by `Decimal(age).quantize(Decimal("0.01"))`
followed by `astype(int)`, so it is kept as is. -/
def export_view (c : ProjectionConfig) : List ProjectionRow :=
  (series c).map fun r =>
    { Age := r.Age
      pension_fund_value := quantize 2 r.pension_fund_value
      projected_growth := quantize 2 r.projected_growth
      charges := quantize 2 r.charges
      ending_fund_value := quantize 2 r.ending_fund_value }

/-- The display view returned to `create_graph` (source lines 169-174): the
export view with every negative `ending_fund_value` replaced by zero.  The
clamp runs after the CSV has been written and after the recurrence has
completed. -/
def display_view (c : ProjectionConfig) : List ProjectionRow :=
  (export_view c).map fun r =>
    if r.ending_fund_value < 0 then { r with ending_fund_value := 0 } else r

/-- The zero-clamp scenario configuration of spec §8: `age=60,
maximum_age=62, pension_fund_value=1000, annual_income=2000`, growth rate
`0.05`, charges rate `0.01`. -/
def cfgClamp : ProjectionConfig :=
  { age := 60, maximum_age := 62, pension_fund_value := 1000, annual_income := 2000
    pct_growth_above_inflation := 1 / 20, pct_charges_above_inflation := 1 / 100 }

/-- A single-row configuration (`pension_fund_value = 1000.005`,
`annual_income = 0.005`, growth rate `0.05`, charges rate `0`) on which the
2-digit export rounding breaks the row identity
`ending = starting + growth - annual_income - charges`. -/
def cfgTie : ProjectionConfig :=
  { age := 60, maximum_age := 60, pension_fund_value := 200001 / 200, annual_income := 1 / 200
    pct_growth_above_inflation := 1 / 20, pct_charges_above_inflation := 0 }

/-! ## Dynamically-typed layer

The exceptions the script can raise, and Python values as they flow through
`AMR_Graph`.  `decimal.InvalidOperation` is a subclass of `ArithmeticError`,
*not* of `ValueError`, which is why the `except ValueError` of
`AMR_Graph.__init__` (source line 103) does not catch it. -/

/-- Exceptions of the modelled script.  `missingSection`/`missingKey` are the
`ValueError`s of `validate_config` (source lines 65, 72), carrying the name
interpolated into the message; `invalidOperation` is `decimal.InvalidOperation`
from `Decimal(value)`; `typeError` is `TypeError` from an unsupported operand
type combination; `attributeError` is `AttributeError` from reading an unset
attribute; `zeroDivision` covers `ZeroDivisionError`/`decimal.DivisionByZero`. -/
inductive PyExn where
  | missingSection (s : String)
  | missingKey (k : String)
  | invalidOperation
  | typeError
  | attributeError
  | zeroDivision
deriving DecidableEq

/-- A Python value as it can appear on an `AMR_Graph` attribute or in a
dataframe cell: `int`, `decimal.Decimal` (an exact rational), `float`, or
`str`.  The `float` payload is the ideal rational value of the computation
that produced it (IEEE-754 rounding is not modelled; no theorem in this file
depends on a float's payload, only on its type). -/
inductive PyVal where
  | int (n : ℤ)
  | dec (q : ℚ)
  | float (q : ℚ)
  | str (s : String)
deriving DecidableEq

/-- Equality of `Except` results is decidable (needed to evaluate the model
on concrete configurations). -/
instance {ε α : Type} [DecidableEq ε] [DecidableEq α] : DecidableEq (Except ε α)
  | .ok a, .ok b =>
    if h : a = b then .isTrue (by rw [h]) else .isFalse (by simp [h])
  | .ok _, .error _ => .isFalse (by simp)
  | .error _, .ok _ => .isFalse (by simp)
  | .error a, .error b =>
    if h : a = b then .isTrue (by rw [h]) else .isFalse (by simp [h])

/-- Python string repetition `s * n` (empty for `n <= 0`). -/
def strTimes (s : String) (n : ℤ) : String :=
  ⟨(List.replicate n.toNat s.data).flatten⟩

/-- Python binary `+` on the value kinds in play.  `int` coerces to
`Decimal`; `Decimal` and `float` do not mix (`TypeError`); `str + str`
concatenates; `str` does not mix with numbers. -/
def pyAdd : PyVal → PyVal → Except PyExn PyVal
  | .int a, .int b => .ok (.int (a + b))
  | .int a, .dec b => .ok (.dec (a + b))
  | .dec a, .int b => .ok (.dec (a + b))
  | .dec a, .dec b => .ok (.dec (a + b))
  | .int a, .float b => .ok (.float (a + b))
  | .float a, .int b => .ok (.float (a + b))
  | .float a, .float b => .ok (.float (a + b))
  | .dec _, .float _ => .error .typeError
  | .float _, .dec _ => .error .typeError
  | .str a, .str b => .ok (.str (a ++ b))
  | .str _, _ => .error .typeError
  | _, .str _ => .error .typeError

/-- Python binary `-` (as `pyAdd`, except no string case succeeds). -/
def pySub : PyVal → PyVal → Except PyExn PyVal
  | .int a, .int b => .ok (.int (a - b))
  | .int a, .dec b => .ok (.dec (a - b))
  | .dec a, .int b => .ok (.dec (a - b))
  | .dec a, .dec b => .ok (.dec (a - b))
  | .int a, .float b => .ok (.float (a - b))
  | .float a, .int b => .ok (.float (a - b))
  | .float a, .float b => .ok (.float (a - b))
  | .dec _, .float _ => .error .typeError
  | .float _, .dec _ => .error .typeError
  | .str _, _ => .error .typeError
  | _, .str _ => .error .typeError

/-- Python binary `*`.  `str * int` is repetition; `Decimal * float` is a
`TypeError` — the source's crash point when a percentage was entered as a
whole number. -/
def pyMul : PyVal → PyVal → Except PyExn PyVal
  | .int a, .int b => .ok (.int (a * b))
  | .int a, .dec b => .ok (.dec (a * b))
  | .dec a, .int b => .ok (.dec (a * b))
  | .dec a, .dec b => .ok (.dec (a * b))
  | .int a, .float b => .ok (.float (a * b))
  | .float a, .int b => .ok (.float (a * b))
  | .float a, .float b => .ok (.float (a * b))
  | .dec _, .float _ => .error .typeError
  | .float _, .dec _ => .error .typeError
  | .str s, .int n => .ok (.str (strTimes s n))
  | .int n, .str s => .ok (.str (strTimes s n))
  | .str _, _ => .error .typeError
  | _, .str _ => .error .typeError

/-- Python true division `/` as used at source lines 111-112
(`self.pct_... / 100`).  `int / int` yields a binary *float* — the source of
the `Decimal * float` `TypeError` downstream.  `Decimal / int` stays
`Decimal` (exact here; the division by 100 of a 20-digit decimal is exact
within the default 28-significant-digit context). -/
def pyDiv : PyVal → PyVal → Except PyExn PyVal
  | .int a, .int b => if b = 0 then .error .zeroDivision else .ok (.float (a / (b : ℚ)))
  | .int a, .dec b => if b = 0 then .error .zeroDivision else .ok (.dec (a / b))
  | .dec a, .int b => if b = 0 then .error .zeroDivision else .ok (.dec (a / (b : ℚ)))
  | .dec a, .dec b => if b = 0 then .error .zeroDivision else .ok (.dec (a / b))
  | .int a, .float b => if b = 0 then .error .zeroDivision else .ok (.float (a / b))
  | .float a, .int b => if b = 0 then .error .zeroDivision else .ok (.float (a / (b : ℚ)))
  | .float a, .float b => if b = 0 then .error .zeroDivision else .ok (.float (a / b))
  | .dec _, .float _ => .error .typeError
  | .float _, .dec _ => .error .typeError
  | .str _, _ => .error .typeError
  | _, .str _ => .error .typeError

/-! ### Numeric literal parsing

Models of CPython's `int(str)` and `Decimal(str)` string grammars, restricted
to optional sign, digits, decimal point and exponent (digit-group
underscores, surrounding whitespace and `NaN`/`Infinity` literals are
accepted by CPython but never produced by this program's configuration
handling and are left out of the modelled grammar). -/

/-- Split a leading run of ASCII digits off a character list. -/
def takeDigits : List Char → List Char × List Char
  | [] => ([], [])
  | ch :: rest =>
    if ch.isDigit then
      let (ds, r) := takeDigits rest
      (ch :: ds, r)
    else ([], ch :: rest)

/-- Numeric value of a digit run. -/
def digitsVal (ds : List Char) : ℕ :=
  ds.foldl (fun acc ch => 10 * acc + (ch.toNat - 48)) 0

/-- Consume an optional leading sign; `true` means negative. -/
def parseSign : List Char → Bool × List Char
  | '-' :: r => (true, r)
  | '+' :: r => (false, r)
  | l => (false, l)

/-- `10^e` for an integer exponent. -/
def pow10 (e : ℤ) : ℚ :=
  if 0 ≤ e then ((10 : ℚ) ^ e.toNat) else 1 / ((10 : ℚ) ^ (-e).toNat)

/-- Parse the optional exponent suffix (`e`/`E`, sign, digits) at the end of
a decimal literal; `some e` on success (`0` when absent). -/
def parseExpPart : List Char → Option ℤ
  | [] => some 0
  | ch :: r =>
    if ch = 'e' ∨ ch = 'E' then
      let (sgn, r1) := parseSign r
      let (ds, r2) := takeDigits r1
      if ds.isEmpty ∨ r2 ≠ [] then none
      else some (if sgn then -(digitsVal ds : ℤ) else (digitsVal ds : ℤ))
    else none

/-- `Decimal(s)`: parse a decimal literal to its exact rational value;
`none` models `decimal.InvalidOperation`. -/
def decLit? (s : String) : Option ℚ :=
  let (sgn, r1) := parseSign s.data
  let (ip, r2) := takeDigits r1
  match r2 with
  | '.' :: r3 =>
    let (fp, r4) := takeDigits r3
    if ip.isEmpty ∧ fp.isEmpty then none
    else
      (parseExpPart r4).map fun e =>
        let mag : ℚ := ((digitsVal ip : ℚ) + (digitsVal fp : ℚ) / 10 ^ fp.length) * pow10 e
        if sgn then -mag else mag
  | _ =>
    if ip.isEmpty then none
    else
      (parseExpPart r2).map fun e =>
        let mag : ℚ := (digitsVal ip : ℚ) * pow10 e
        if sgn then -mag else mag

/-- `int(s)`: parse an integer literal; `none` models `ValueError`. -/
def intLit? (s : String) : Option ℤ :=
  let (sgn, r1) := parseSign s.data
  let (ds, r2) := takeDigits r1
  if ds.isEmpty ∨ r2 ≠ [] then none
  else some (if sgn then -(digitsVal ds : ℤ) else (digitsVal ds : ℤ))

/-- `value.replace(",", "")` (source line 95): the pattern is a single
character, so the replacement is a character filter. -/
def stripCommas (s : String) : String :=
  ⟨s.data.filter (fun ch => ch ≠ ',')⟩

/-- `to_decimal_round(value)` (source lines 78-84) on a Python value:
`Decimal(value)` quantized to 20 fractional digits, `ROUND_HALF_UP`.
`Decimal(int)`, `Decimal(Decimal)` and `Decimal(float)` succeed;
`Decimal(str)` parses the literal and raises `decimal.InvalidOperation` on
failure.  The `pd.isna` branch concerns float `NaN`, which this embedding
does not represent. -/
def to_decimal_round_val : PyVal → Except PyExn PyVal
  | .int n => .ok (.dec (quantize 20 (n : ℚ)))
  | .dec q => .ok (.dec (quantize 20 q))
  | .float q => .ok (.dec (quantize 20 q))
  | .str s =>
    match decLit? s with
    | some q => .ok (.dec (quantize 20 q))
    | none => .error .invalidOperation

/-- One iteration of the `__init__` parsing loop (source lines 93-105):
strip commas; if the value contains `'.'`, convert with `to_decimal_round`
(`Decimal(...)` failure raises `decimal.InvalidOperation`, which the
`except ValueError` does **not** catch, so it propagates); otherwise try
`int(...)`, whose `ValueError` *is* caught, leaving the (comma-stripped)
string as the attribute value. -/
def parse_value (s : String) : Except PyExn PyVal :=
  let v := stripCommas s
  if v.data.contains '.' then
    to_decimal_round_val (.str v)
  else
    match intLit? v with
    | some n => .ok (.int n)
    | none => .ok (.str v)

/-- Parse every `(key, value)` item of the `Values` section in order,
stopping at the first uncaught exception. -/
def parse_values : List (String × String) → Except PyExn (List (String × PyVal))
  | [] => .ok []
  | (k, v) :: rest => do
    let pv ← parse_value v
    let r ← parse_values rest
    .ok ((k, pv) :: r)

/-- First-match key lookup in an association list (configparser rejects
duplicate keys, so at most one match exists). -/
def lookupKV {α : Type} : List (String × α) → String → Option α
  | [], _ => none
  | (k, v) :: rest, key => if k = key then some v else lookupKV rest key

/-- Attribute read `self.<k>`; `AttributeError` if the parsing loop never set
it. -/
def getattr_val (avs : List (String × PyVal)) (k : String) : Except PyExn PyVal :=
  match lookupKV avs k with
  | some v => .ok v
  | none => .error .attributeError

/-- The `AMR_Graph` object state after `__init__`: the seven attributes the
rest of the script reads (further configuration keys would become attributes
too, but nothing reads them). -/
structure AMR_Graph where
  name : PyVal
  age : PyVal
  maximum_age : PyVal
  pension_fund_value : PyVal
  annual_income : PyVal
  pct_growth_above_inflation : PyVal
  pct_charges_above_inflation : PyVal
deriving DecidableEq

/-- `AMR_Graph.__init__` (source lines 88-112): parse and assign every value,
then replace the two percentage attributes by themselves divided by 100
(Python true division: whole-number percentages become binary floats). -/
def AMR_init (vals : List (String × String)) : Except PyExn AMR_Graph := do
  let avs ← parse_values vals
  let name ← getattr_val avs "name"
  let age ← getattr_val avs "age"
  let maximum_age ← getattr_val avs "maximum_age"
  let pension_fund_value ← getattr_val avs "pension_fund_value"
  let annual_income ← getattr_val avs "annual_income"
  let g0 ← getattr_val avs "pct_growth_above_inflation"
  let c0 ← getattr_val avs "pct_charges_above_inflation"
  let g1 ← pyDiv g0 (.int 100)
  let c1 ← pyDiv c0 (.int 100)
  .ok { name := name, age := age, maximum_age := maximum_age
        pension_fund_value := pension_fund_value, annual_income := annual_income
        pct_growth_above_inflation := g1, pct_charges_above_inflation := c1 }

/-- A dataframe row of the typed layer. -/
structure PyRow where
  Age : PyVal
  pension_fund_value : PyVal
  projected_growth : PyVal
  charges : PyVal
  ending_fund_value : PyVal
deriving DecidableEq

/-- `range(n)` length: a Python `int` argument yields `max n 0` iterations;
any other type (`Decimal`, `float`, `str`) raises `TypeError`. -/
def pyRange : PyVal → Except PyExn ℕ
  | .int n => .ok n.toNat
  | _ => .error .typeError

/-- The row loop of source lines 137-154 on Python values: `prevEnd` is the
previous row's `ending_fund_value` cell, `i` the loop index, `fuel` the
remaining iterations.  Expression order follows the source: growth, charge,
then the row list (whose first element evaluates `self.age + i + 1`). -/
def add_rows_val (a : AMR_Graph) (prevEnd : PyVal) (i : ℕ) : ℕ → Except PyExn (List PyRow)
  | 0 => .ok []
  | fuel + 1 => do
    let pg ← pyMul prevEnd a.pct_growth_above_inflation >>= to_decimal_round_val
    let pc ← pyMul prevEnd a.pct_charges_above_inflation >>= to_decimal_round_val
    let ageV ← pyAdd a.age (.int i) >>= fun t => pyAdd t (.int 1)
    let e ← pyAdd prevEnd pg >>= fun t => pySub t a.annual_income >>= fun t2 => pySub t2 pc
    let rest ← add_rows_val a e (i + 1) fuel
    .ok ({ Age := ageV, pension_fund_value := prevEnd, projected_growth := pg
           charges := pc, ending_fund_value := e } :: rest)

/-- The high-precision dataframe of `create_dataframe` (source lines
117-154) on Python values. -/
def create_rows (a : AMR_Graph) : Except PyExn (List PyRow) := do
  let ig ← pyMul a.pension_fund_value a.pct_growth_above_inflation >>= to_decimal_round_val
  let ic ← pyMul a.pension_fund_value a.pct_charges_above_inflation >>= to_decimal_round_val
  let start0 ← to_decimal_round_val a.pension_fund_value
  let e0 ← pyAdd a.pension_fund_value ig >>= fun t => pySub t a.annual_income >>= fun t2 => pySub t2 ic
  let nrows ← pySub a.maximum_age a.age >>= pyRange
  let rest ← add_rows_val a e0 0 nrows
  .ok ({ Age := a.age, pension_fund_value := start0, projected_growth := ig
         charges := ic, ending_fund_value := e0 } :: rest)

/-- One cell of the 2-digit rounding pass (source line 157):
`Decimal(value).quantize(Decimal("0.01"), rounding=ROUND_HALF_UP)`. -/
def round2_val : PyVal → Except PyExn PyVal
  | .int n => .ok (.dec (quantize 2 (n : ℚ)))
  | .dec q => .ok (.dec (quantize 2 q))
  | .float q => .ok (.dec (quantize 2 q))
  | .str s =>
    match decLit? s with
    | some q => .ok (.dec (quantize 2 q))
    | none => .error .invalidOperation

/-- The 2-digit rounding pass applied to every cell of a row.  (The source
maps column by column; on the rows this pipeline produces no cell fails, so
the row-major order used here only matters for which exception would surface
first, never for the value.) -/
def round2_row (r : PyRow) : Except PyExn PyRow := do
  let a ← round2_val r.Age
  let s ← round2_val r.pension_fund_value
  let g ← round2_val r.projected_growth
  let c ← round2_val r.charges
  let e ← round2_val r.ending_fund_value
  .ok { Age := a, pension_fund_value := s, projected_growth := g, charges := c
        ending_fund_value := e }

/-- `df["Age"].astype(int)` on one cell (source line 161): `int(Decimal)`
truncates toward zero. -/
def astype_int : PyVal → Except PyExn PyVal
  | .int n => .ok (.int n)
  | .dec q => .ok (.int (q.num.tdiv q.den))
  | .float q => .ok (.int (q.num.tdiv q.den))
  | .str _ => .error .typeError

/-- Force the `Age` cell of a row to `int`. -/
def astype_int_row (r : PyRow) : Except PyExn PyRow :=
  (astype_int r.Age).map fun v => { r with Age := v }

/-- Source lines 157-161: round every cell to 2 digits, then force `Age` to
integer.  The result is what `df.to_csv` writes (line 166). -/
def round2_df (rows : List PyRow) : Except PyExn (List PyRow) := do
  let ex ← rows.mapM round2_row
  ex.mapM astype_int_row

/-- The zero-clamp of source line 170: cells with `ending_fund_value < 0`
are assigned the Python `int` `0`.  The comparison itself would raise
`TypeError` on a `str` cell (unreachable after the rounding pass). -/
def clamp_row (r : PyRow) : Except PyExn PyRow :=
  match r.ending_fund_value with
  | .int n => .ok (if n < 0 then { r with ending_fund_value := .int 0 } else r)
  | .dec q => .ok (if q < 0 then { r with ending_fund_value := .int 0 } else r)
  | .float q => .ok (if q < 0 then { r with ending_fund_value := .int 0 } else r)
  | .str _ => .error .typeError

/-- `AMR_Graph.create_dataframe` (source lines 114-174) end to end: returns
the exported table (written to `<name>_values.csv`) and the clamped display
table handed to `create_graph`. -/
def create_dataframe_py (a : AMR_Graph) : Except PyExn (List PyRow × List PyRow) := do
  let rows ← create_rows a
  let ex ← round2_df rows
  let disp ← ex.mapM clamp_row
  .ok (ex, disp)

/-- The required keys of the `Values` section (source line 68). -/
def requiredKeys : List String :=
  ["name", "age", "maximum_age", "pension_fund_value", "annual_income",
   "pct_growth_above_inflation", "pct_charges_above_inflation"]

/-- `validate_config` (source lines 49-75) on an already-read configuration
(the file-existence check is outside this embedding): require the `Values`
section, then every required key, raising a `ValueError` naming the first
missing section/key. -/
def validate_config (sections : List (String × List (String × String))) :
    Except PyExn (List (String × String)) :=
  match lookupKV sections "Values" with
  | none => .error (.missingSection "Values")
  | some vals =>
    match requiredKeys.find? (fun k => (lookupKV vals k).isNone) with
    | some k => .error (.missingKey k)
    | none => .ok vals

/-- The `__main__` pipeline (source lines 224-245): validate the
configuration, construct `AMR_Graph`, build and export the dataframe.  Any
exception propagates and no output is produced. -/
def run_script (sections : List (String × List (String × String))) :
    Except PyExn (List PyRow × List PyRow) := do
  let vals ← validate_config sections
  let a ← AMR_init vals
  create_dataframe_py a

/-! ### Concrete configurations used by individual claims -/

/-- The `Values` items of a configuration missing `annual_income` (spec §8
missing-key scenario). -/
def valsMissingIncome : List (String × String) :=
  [("name", "client"), ("age", "60"), ("maximum_age", "90"),
   ("pension_fund_value", "100000.00"),
   ("pct_growth_above_inflation", "5.0"), ("pct_charges_above_inflation", "1.0")]

/-- A configuration missing `annual_income` (spec §8 missing-key scenario). -/
def sectionsMissingIncome : List (String × List (String × String)) :=
  [("Values", valsMissingIncome)]

/-- A configuration with whole-number percentages (`5` meaning 5 %, exactly
the format spec §6 documents) and a decimal-point fund value. -/
def sectionsWholePct : List (String × List (String × String)) :=
  [("Values",
    [("name", "client"), ("age", "60"), ("maximum_age", "62"),
     ("pension_fund_value", "2000.25"), ("annual_income", "100"),
     ("pct_growth_above_inflation", "5"), ("pct_charges_above_inflation", "1")])]

/-- As `sectionsWholePct` with different amounts (the C6 counterexample). -/
def sectionsWholePct6 : List (String × List (String × String)) :=
  [("Values",
    [("name", "test"), ("age", "60"), ("maximum_age", "62"),
     ("pension_fund_value", "1000.50"), ("annual_income", "200"),
     ("pct_growth_above_inflation", "5"), ("pct_charges_above_inflation", "1")])]

/-- A configuration whose `name` value contains a decimal point but is not a
valid decimal literal. -/
def sectionsDotName : List (String × List (String × String)) :=
  [("Values",
    [("name", "J. Smith"), ("age", "60"), ("maximum_age", "90"),
     ("pension_fund_value", "100000.00"), ("annual_income", "5000.00"),
     ("pct_growth_above_inflation", "5.0"), ("pct_charges_above_inflation", "1.0")])]

/-- An `AMR_Graph` state with `Decimal` rates (the witness for the amended
C6). -/
def amrDec : AMR_Graph :=
  { name := .str "client", age := .int 60, maximum_age := .int 62
    pension_fund_value := .dec 1000, annual_income := .int 2000
    pct_growth_above_inflation := .dec (1 / 20), pct_charges_above_inflation := .dec (1 / 100) }

/-- `v` is a Python `int` or `Decimal` — the value kinds that mix in
`Decimal` arithmetic without a `TypeError`. -/
def isND (v : PyVal) : Prop := (∃ n : ℤ, v = .int n) ∨ (∃ q : ℚ, v = .dec q)

/-! ## Arithmetic facts about the rounding utility -/

/-- Quantizing an integer changes nothing. -/
theorem roundHalfUp_intCast (m : ℤ) : roundHalfUp (m : ℚ) = m := by
  unfold roundHalfUp
  split
  · rw [Int.floor_int_add]
    norm_num
  · rw [show -((m : ℚ)) = ((-m : ℤ) : ℚ) by push_cast; ring, Int.floor_int_add]
    norm_num

/-- `IsDec` unfolded to an explicit scaled-integer representation. -/
theorem isDec_iff (p : ℕ) (x : ℚ) : IsDec p x ↔ ∃ m : ℤ, x = (m : ℚ) / 10 ^ p := by
  unfold IsDec
  constructor
  · intro h
    refine ⟨(x * 10 ^ p).num, ?_⟩
    have h2 : ((x * 10 ^ p).num : ℚ) = x * 10 ^ p := (Rat.den_eq_one_iff _).1 h
    rw [h2]
    field_simp
  · rintro ⟨m, rfl⟩
    have hp : ((10 : ℚ) ^ p) ≠ 0 := by positivity
    rw [div_mul_cancel₀ _ hp]
    exact Rat.den_intCast m

/-- Scale-`p` decimals are closed under addition. -/
theorem IsDec.add {p : ℕ} {x y : ℚ} (hx : IsDec p x) (hy : IsDec p y) :
    IsDec p (x + y) := by
  rw [isDec_iff] at hx hy ⊢
  obtain ⟨a, rfl⟩ := hx
  obtain ⟨b, rfl⟩ := hy
  exact ⟨a + b, by push_cast; ring⟩

/-- Scale-`p` decimals are closed under subtraction. -/
theorem IsDec.sub {p : ℕ} {x y : ℚ} (hx : IsDec p x) (hy : IsDec p y) :
    IsDec p (x - y) := by
  rw [isDec_iff] at hx hy ⊢
  obtain ⟨a, rfl⟩ := hx
  obtain ⟨b, rfl⟩ := hy
  exact ⟨a - b, by push_cast; ring⟩

/-- Quantizing to `p` places yields a scale-`p` decimal. -/
theorem isDec_quantize (p : ℕ) (x : ℚ) : IsDec p (quantize p x) := by
  rw [isDec_iff]
  exact ⟨roundHalfUp (x * 10 ^ p), rfl⟩

/-- Quantizing a value that is already a scale-`p` decimal is the identity. -/
theorem quantize_eq_self {p : ℕ} {x : ℚ} (h : IsDec p x) : quantize p x = x := by
  rw [isDec_iff] at h
  obtain ⟨m, rfl⟩ := h
  unfold quantize
  have hp : ((10 : ℚ) ^ p) ≠ 0 := by positivity
  rw [div_mul_cancel₀ _ hp, roundHalfUp_intCast]

/-! ## Structure of the rational-layer series -/

/-- The row loop produces exactly `fuel` rows. -/
theorem addRows_length (c : ProjectionConfig) :
    ∀ fuel prev i, (addRows c prev i fuel).length = fuel := by
  intro fuel
  induction fuel with
  | zero => intro prev i; rfl
  | succ n ih => intro prev i; simp [addRows, ih]

/-- The series has `(maximum_age - age).toNat + 1` rows. -/
theorem series_length (c : ProjectionConfig) :
    (series c).length = (c.maximum_age - c.age).toNat + 1 := by
  simp [series, addRows_length]

/-- The first loop row's `pension_fund_value` cell is the carried-in previous
ending value. -/
theorem addRows_head_start (c : ProjectionConfig) (fuel : ℕ) (prev : ℚ) (i : ℕ)
    (h : 0 < fuel) :
    ((addRows c prev i fuel)[0]?).map ProjectionRow.pension_fund_value = some prev := by
  cases fuel with
  | zero => exact absurd h (lt_irrefl 0)
  | succ n => simp [addRows]

/-- Within the loop output, each row's `pension_fund_value` is the previous
row's `ending_fund_value`. -/
theorem addRows_adjacent (c : ProjectionConfig) :
    ∀ fuel prev i k, k + 1 < fuel →
      ((addRows c prev i fuel)[k + 1]?).map ProjectionRow.pension_fund_value =
        ((addRows c prev i fuel)[k]?).map ProjectionRow.ending_fund_value := by
  intro fuel
  induction fuel with
  | zero => intro prev i k h; exact absurd h (Nat.not_lt_zero _)
  | succ n ih =>
    intro prev i k h
    match k with
    | 0 =>
      have hn : 0 < n := by omega
      simp only [addRows, List.getElem?_cons_succ, List.getElem?_cons_zero]
      rw [addRows_head_start c n _ _ hn]
      rfl
    | k + 1 =>
      simp only [addRows, List.getElem?_cons_succ]
      exact ih _ _ k (by omega)

/-- Ages within the loop output: row `k` (zero-based) of
`addRows c prev i fuel` has age `c.age + i + 1 + k`. -/
theorem addRows_age (c : ProjectionConfig) :
    ∀ fuel prev i k, k < fuel →
      ((addRows c prev i fuel)[k]?).map ProjectionRow.Age =
        some (c.age + (i : ℤ) + 1 + (k : ℤ)) := by
  intro fuel
  induction fuel with
  | zero => intro prev i k h; exact absurd h (Nat.not_lt_zero _)
  | succ n ih =>
    intro prev i k h
    match k with
    | 0 => simp [addRows]
    | k + 1 =>
      simp only [addRows, List.getElem?_cons_succ]
      rw [ih _ _ k (by omega)]
      congr 1
      push_cast
      ring

/-- Every loop row satisfies the §3 row formulas relative to its own
`pension_fund_value` cell. -/
theorem addRows_mem_spec (c : ProjectionConfig) :
    ∀ fuel prev i r, r ∈ addRows c prev i fuel →
      r.projected_growth = to_decimal_round (r.pension_fund_value * c.pct_growth_above_inflation) ∧
      r.charges = to_decimal_round (r.pension_fund_value * c.pct_charges_above_inflation) ∧
      r.ending_fund_value =
        r.pension_fund_value + r.projected_growth - c.annual_income - r.charges := by
  intro fuel
  induction fuel with
  | zero => intro prev i r hr; exact absurd hr (List.not_mem_nil r)
  | succ n ih =>
    intro prev i r hr
    simp only [addRows, List.mem_cons] at hr
    rcases hr with rfl | hr
    · exact ⟨rfl, rfl, rfl⟩
    · exact ih _ _ r hr

/-- Every loop row's monetary cells are scale-20 decimals, provided the
carried-in previous ending value and the annual income are. -/
theorem addRows_mem_isDec (c : ProjectionConfig) (hinc : IsDec 20 c.annual_income) :
    ∀ fuel prev i r, IsDec 20 prev → r ∈ addRows c prev i fuel →
      IsDec 20 r.pension_fund_value ∧ IsDec 20 r.projected_growth ∧
      IsDec 20 r.charges ∧ IsDec 20 r.ending_fund_value := by
  intro fuel
  induction fuel with
  | zero => intro prev i r _ hr; exact absurd hr (List.not_mem_nil r)
  | succ n ih =>
    intro prev i r hprev hr
    simp only [addRows, List.mem_cons] at hr
    rcases hr with rfl | hr
    · exact ⟨hprev, isDec_quantize 20 _, isDec_quantize 20 _,
        ((hprev.add (isDec_quantize 20 _)).sub hinc).sub (isDec_quantize 20 _)⟩
    · exact ih _ _ r (((hprev.add (isDec_quantize 20 _)).sub hinc).sub (isDec_quantize 20 _)) hr

/-! ## Success of the typed engine on `int`/`Decimal` attributes -/

/-- Reduction of `Except` bind on a success value. -/
@[simp] theorem except_bind_ok {ε α β : Type} (a : α) (f : α → Except ε β) :
    (Except.ok a >>= f) = f a := rfl

/-- Reduction of `Except` bind on an error. -/
@[simp] theorem except_bind_error {ε α β : Type} (e : ε) (f : α → Except ε β) :
    ((Except.error e : Except ε α) >>= f) = Except.error e := rfl

/-- `Decimal + Decimal` reduction. -/
@[simp] theorem pyAdd_dec_dec (a b : ℚ) : pyAdd (.dec a) (.dec b) = .ok (.dec (a + b)) := rfl

/-- `Decimal - Decimal` reduction. -/
@[simp] theorem pySub_dec_dec (a b : ℚ) : pySub (.dec a) (.dec b) = .ok (.dec (a - b)) := rfl

/-- `Decimal * Decimal` reduction. -/
@[simp] theorem pyMul_dec_dec (a b : ℚ) : pyMul (.dec a) (.dec b) = .ok (.dec (a * b)) := rfl

/-- `int + int` reduction. -/
@[simp] theorem pyAdd_int_int (a b : ℤ) : pyAdd (.int a) (.int b) = .ok (.int (a + b)) := rfl

/-- `int - int` reduction. -/
@[simp] theorem pySub_int_int (a b : ℤ) : pySub (.int a) (.int b) = .ok (.int (a - b)) := rfl

/-- `range` of an `int` reduction. -/
@[simp] theorem pyRange_int (n : ℤ) : pyRange (.int n) = .ok n.toNat := rfl

/-- `to_decimal_round` of a `Decimal` reduction. -/
@[simp] theorem to_decimal_round_val_dec (q : ℚ) :
    to_decimal_round_val (.dec q) = .ok (.dec (quantize 20 q)) := rfl

/-- Subtracting an `int`/`Decimal` value from a `Decimal` succeeds and stays
`Decimal`. -/
theorem pySub_dec_nd (q : ℚ) {v : PyVal} (h : isND v) :
    ∃ q2 : ℚ, pySub (.dec q) v = .ok (.dec q2) := by
  rcases h with ⟨n, rfl⟩ | ⟨qv, rfl⟩
  · exact ⟨q - n, rfl⟩
  · exact ⟨q - qv, rfl⟩

/-- Multiplying an `int`/`Decimal` value by a `Decimal` succeeds and yields a
`Decimal`. -/
theorem pyMul_nd_dec {v : PyVal} (h : isND v) (b : ℚ) :
    ∃ q2 : ℚ, pyMul v (.dec b) = .ok (.dec q2) := by
  rcases h with ⟨n, rfl⟩ | ⟨qv, rfl⟩
  · exact ⟨n * b, rfl⟩
  · exact ⟨qv * b, rfl⟩

/-- Adding a `Decimal` to an `int`/`Decimal` value succeeds and yields a
`Decimal`. -/
theorem pyAdd_nd_dec {v : PyVal} (h : isND v) (b : ℚ) :
    ∃ q2 : ℚ, pyAdd v (.dec b) = .ok (.dec q2) := by
  rcases h with ⟨n, rfl⟩ | ⟨qv, rfl⟩
  · exact ⟨n + b, rfl⟩
  · exact ⟨qv + b, rfl⟩

/-- With an integer `age`, `Decimal` rates and an `int`/`Decimal` income, the
row loop of the typed engine never raises, whatever `Decimal` ending value is
carried in, and produces one row per iteration. -/
theorem add_rows_val_ok (a : AMR_Graph) (A : ℤ) (g c : ℚ)
    (ha : a.age = .int A) (hg : a.pct_growth_above_inflation = .dec g)
    (hc : a.pct_charges_above_inflation = .dec c) (hI : isND a.annual_income) :
    ∀ fuel i q, ∃ rows, add_rows_val a (.dec q) i fuel = .ok rows ∧ rows.length = fuel := by
  intro fuel
  induction fuel with
  | zero => intro i q; exact ⟨[], rfl, rfl⟩
  | succ n ih =>
    intro i q
    obtain ⟨e1, he1⟩ := pySub_dec_nd (q + quantize 20 (q * g)) hI
    obtain ⟨rows, hrows, hlen⟩ := ih (i + 1) (e1 - quantize 20 (q * c))
    refine ⟨{ Age := .int (A + (i : ℤ) + 1), pension_fund_value := .dec q
              projected_growth := .dec (quantize 20 (q * g))
              charges := .dec (quantize 20 (q * c))
              ending_fund_value := .dec (e1 - quantize 20 (q * c)) } :: rows,
      ?_, by simp [hlen]⟩
    simp only [add_rows_val, hg, hc, ha, pyMul_dec_dec, to_decimal_round_val_dec,
      except_bind_ok, pyAdd_int_int, pyAdd_dec_dec, he1, pySub_dec_dec, hrows]

/-- With integer ages, `Decimal` rates and `int`/`Decimal` fund/income
values, `create_rows` (the whole recurrence of `create_dataframe`) never
raises and produces exactly `(maximum_age - age).toNat + 1` rows. -/
theorem create_rows_ok (a : AMR_Graph) (A M : ℤ) (g c : ℚ)
    (ha : a.age = .int A) (hM : a.maximum_age = .int M)
    (hg : a.pct_growth_above_inflation = .dec g)
    (hc : a.pct_charges_above_inflation = .dec c)
    (hF : isND a.pension_fund_value) (hI : isND a.annual_income) :
    ∃ rows, create_rows a = .ok rows ∧ rows.length = (M - A).toNat + 1 := by
  obtain ⟨qg, hqg⟩ := pyMul_nd_dec hF g
  obtain ⟨qc, hqc⟩ := pyMul_nd_dec hF c
  obtain ⟨q0, hq0⟩ := pyAdd_nd_dec hF (quantize 20 qg)
  obtain ⟨q1, hq1⟩ := pySub_dec_nd q0 hI
  obtain ⟨rows, hrows, hlen⟩ :=
    add_rows_val_ok a A g c ha hg hc hI (M - A).toNat 0 (q1 - quantize 20 qc)
  have hstart : ∃ s, to_decimal_round_val a.pension_fund_value = .ok (.dec s) := by
    rcases hF with ⟨n, hn⟩ | ⟨qv, hv⟩
    · exact ⟨quantize 20 (n : ℚ), by rw [hn]; rfl⟩
    · exact ⟨quantize 20 qv, by rw [hv]; rfl⟩
  obtain ⟨s, hs⟩ := hstart
  refine ⟨{ Age := a.age, pension_fund_value := .dec s
            projected_growth := .dec (quantize 20 qg)
            charges := .dec (quantize 20 qc)
            ending_fund_value := .dec (q1 - quantize 20 qc) } :: rows,
    ?_, by simp [hlen]⟩
  simp only [create_rows, hg, hc, hqg, hqc, except_bind_ok, to_decimal_round_val_dec, hs,
    hq0, hq1, ha, hM, pySub_dec_dec, pySub_int_int, pyRange_int, hrows]

/-! ## Claim theorems -/

/-- C1: for every valid configuration, every row of the computed series
satisfies `projected_growth = quantize 20 (starting * growth_rate)`,
`charges = quantize 20 (starting * charges_rate)` (both round-half-up at 20
fractional digits), and
`ending = starting + projected_growth - annual_income - charges`, before any
2-digit export rounding. -/
theorem c1_row_formulas (cfg : ProjectionConfig) (hv : ValidProjectionConfig cfg) :
    ∀ r ∈ series cfg,
      r.projected_growth = quantize 20 (r.pension_fund_value * cfg.pct_growth_above_inflation) ∧
      r.charges = quantize 20 (r.pension_fund_value * cfg.pct_charges_above_inflation) ∧
      r.ending_fund_value =
        r.pension_fund_value + r.projected_growth - cfg.annual_income - r.charges := by
  intro r hr
  simp only [series, List.mem_cons] at hr
  rcases hr with rfl | hr
  · have hf : quantize 20 cfg.pension_fund_value = cfg.pension_fund_value :=
      quantize_eq_self hv.2.2.2.1
    refine ⟨?_, ?_, ?_⟩ <;> simp [firstRow, to_decimal_round, hf]
  · exact addRows_mem_spec cfg _ _ _ r hr

/-- Witness for C1 at the spec §8 configuration and its first row. -/
theorem c1_row_formulas_witness :
    ValidProjectionConfig cfgClamp ∧
    ((firstRow cfgClamp).projected_growth =
        quantize 20 ((firstRow cfgClamp).pension_fund_value * cfgClamp.pct_growth_above_inflation) ∧
      (firstRow cfgClamp).charges =
        quantize 20 ((firstRow cfgClamp).pension_fund_value * cfgClamp.pct_charges_above_inflation) ∧
      (firstRow cfgClamp).ending_fund_value =
        (firstRow cfgClamp).pension_fund_value + (firstRow cfgClamp).projected_growth -
          cfgClamp.annual_income - (firstRow cfgClamp).charges) :=
  ⟨by decide, c1_row_formulas cfgClamp (by decide) (firstRow cfgClamp) (by decide)⟩

/-- C2: for every valid configuration, each later row's starting fund value
is the previous row's *unclamped*, high-precision ending fund value: the
recurrence propagates negative values forward, and the zero-clamp (which is
applied only in `display_view`, after the series is complete) never feeds
back. -/
theorem c2_recurrence_unclamped (cfg : ProjectionConfig) (hv : ValidProjectionConfig cfg) :
    ∀ k : ℕ, k + 1 < (series cfg).length →
      ((series cfg)[k + 1]?).map ProjectionRow.pension_fund_value =
        ((series cfg)[k]?).map ProjectionRow.ending_fund_value := by
  intro k h
  rw [series_length] at h
  match k with
  | 0 =>
    have hn : 0 < (cfg.maximum_age - cfg.age).toNat := by omega
    simp only [series, List.getElem?_cons_succ, List.getElem?_cons_zero]
    rw [addRows_head_start cfg _ _ _ hn]
    rfl
  | k + 1 =>
    simp only [series, List.getElem?_cons_succ]
    exact addRows_adjacent cfg _ _ _ k (by omega)

/-- Witness for C2 at the spec §8 configuration, rows 1 and 2. -/
theorem c2_recurrence_unclamped_witness :
    ValidProjectionConfig cfgClamp ∧ 1 + 1 < (series cfgClamp).length ∧
      ((series cfgClamp)[1 + 1]?).map ProjectionRow.pension_fund_value =
        ((series cfgClamp)[1]?).map ProjectionRow.ending_fund_value :=
  ⟨by decide, by decide, c2_recurrence_unclamped cfgClamp (by decide) 1 (by decide)⟩

/-- C3: for every configuration with `maximum_age >= age`, the series has
exactly `maximum_age - age + 1` rows and row `k` has age `age + k`. -/
theorem c3_row_count_and_ages (cfg : ProjectionConfig) (h : cfg.age ≤ cfg.maximum_age) :
    ((series cfg).length : ℤ) = cfg.maximum_age - cfg.age + 1 ∧
    ∀ k : ℕ, k < (series cfg).length →
      ((series cfg)[k]?).map ProjectionRow.Age = some (cfg.age + (k : ℤ)) := by
  constructor
  · rw [series_length]
    push_cast [Int.toNat_of_nonneg (by omega : (0 : ℤ) ≤ cfg.maximum_age - cfg.age)]
    ring
  · intro k hk
    rw [series_length] at hk
    match k with
    | 0 => simp [series, firstRow]
    | k + 1 =>
      simp only [series, List.getElem?_cons_succ]
      rw [addRows_age cfg _ _ _ k (by omega)]
      congr 1
      push_cast
      ring

/-- Witness for C3 at the spec §8 configuration. -/
theorem c3_row_count_and_ages_witness :
    cfgClamp.age ≤ cfgClamp.maximum_age ∧
    ((series cfgClamp).length : ℤ) = cfgClamp.maximum_age - cfgClamp.age + 1 ∧
    2 < (series cfgClamp).length ∧
    ((series cfgClamp)[2]?).map ProjectionRow.Age = some (cfgClamp.age + ((2 : ℕ) : ℤ)) :=
  ⟨by decide, (c3_row_count_and_ages cfgClamp (by decide)).1, by decide,
    (c3_row_count_and_ages cfgClamp (by decide)).2 2 (by decide)⟩

/-- C4: on the spec §8 zero-clamp scenario (`age=60, maximum_age=62,
fund=1000, income=2000, growth 0.05, charges 0.01`), the unclamped ending
fund value at age 60 is `1000 + 50 - 2000 - 10 = -960`; the export view
shows `-960.00`; the display view shows `0.00`; and the age-61 row's
starting fund value in the export view is `-960.00`, not `0.00`. -/
theorem c4_zero_clamp_scenario :
    ((series cfgClamp)[0]?).map ProjectionRow.ending_fund_value = some (-960) ∧
    ((export_view cfgClamp)[0]?).map ProjectionRow.ending_fund_value = some (-960) ∧
    ((display_view cfgClamp)[0]?).map ProjectionRow.ending_fund_value = some 0 ∧
    ((export_view cfgClamp)[1]?).map ProjectionRow.pension_fund_value = some (-960) := by
  decide

/-- C5 (amended): on the `int`/`Decimal` path — in particular whenever the
amounts are decimals of scale 20, as parsing produces — every monetary cell
of every series row is carried as an exact scale-20 decimal through the
whole recurrence, and the export view's cells are exactly the 2-fractional-
digit roundings.  (The claim's "including whole-number percentage entry"
clause fails: see the counterexample theorem.) -/
theorem c5_decimal_precision (cfg : ProjectionConfig)
    (hf : IsDec 20 cfg.pension_fund_value) (hi : IsDec 20 cfg.annual_income) :
    (∀ r ∈ series cfg,
      IsDec 20 r.pension_fund_value ∧ IsDec 20 r.projected_growth ∧
      IsDec 20 r.charges ∧ IsDec 20 r.ending_fund_value) ∧
    (∀ r ∈ export_view cfg,
      IsDec 2 r.pension_fund_value ∧ IsDec 2 r.projected_growth ∧
      IsDec 2 r.charges ∧ IsDec 2 r.ending_fund_value) := by
  constructor
  · intro r hr
    simp only [series, List.mem_cons] at hr
    rcases hr with rfl | hr
    · exact ⟨isDec_quantize 20 _, isDec_quantize 20 _, isDec_quantize 20 _,
        ((hf.add (isDec_quantize 20 _)).sub hi).sub (isDec_quantize 20 _)⟩
    · exact addRows_mem_isDec cfg hi _ _ _ r
        (((hf.add (isDec_quantize 20 _)).sub hi).sub (isDec_quantize 20 _)) hr
  · intro r hr
    simp only [export_view, List.mem_map] at hr
    obtain ⟨r0, _, rfl⟩ := hr
    exact ⟨isDec_quantize 2 _, isDec_quantize 2 _, isDec_quantize 2 _, isDec_quantize 2 _⟩

/-- Witness for the amended C5 at the spec §8 configuration. -/
theorem c5_decimal_precision_witness :
    IsDec 20 cfgClamp.pension_fund_value ∧ IsDec 20 cfgClamp.annual_income ∧
      (IsDec 20 (firstRow cfgClamp).pension_fund_value ∧
        IsDec 20 (firstRow cfgClamp).projected_growth ∧
        IsDec 20 (firstRow cfgClamp).charges ∧
        IsDec 20 (firstRow cfgClamp).ending_fund_value) :=
  ⟨by decide, by decide,
    (c5_decimal_precision cfgClamp (by decide) (by decide)).1 (firstRow cfgClamp) (by decide)⟩

/-- C5 counterexample: with the percentage keys entered as whole-number
percentages (`5` and `1`, the exact format spec §6 documents) and a
decimal fund value, the script raises `TypeError` (`Decimal * float`) in the
recurrence — the monetary figures are not carried at 20-digit decimal
precision on that path, because `int / 100` is a binary float. -/
theorem c5_whole_pct_counterexample :
    run_script sectionsWholePct = .error .typeError := by decide

/-- C6 (amended): with an integer `age`/`maximum_age`, `Decimal` percentage
rates (decimal-point entries divided by 100) and `int`/`Decimal` fund and
income values, the recurrence of `create_dataframe` never raises and
produces exactly `(maximum_age - age).toNat + 1` rows.  (As claimed, except
that whole-number percentage entries — allowed by spec §6 — do raise
mid-computation: see the counterexample theorem.) -/
theorem c6_no_midrun_error_amended (a : AMR_Graph) (A M : ℤ) (g c : ℚ)
    (ha : a.age = .int A) (hM : a.maximum_age = .int M)
    (hg : a.pct_growth_above_inflation = .dec g)
    (hc : a.pct_charges_above_inflation = .dec c)
    (hF : isND a.pension_fund_value) (hI : isND a.annual_income) :
    ∃ rows, create_rows a = .ok rows ∧ rows.length = (M - A).toNat + 1 :=
  create_rows_ok a A M g c ha hM hg hc hF hI

/-- Witness for the amended C6 on a concrete `AMR_Graph` state. -/
theorem c6_no_midrun_error_amended_witness :
    ∃ rows, create_rows amrDec = .ok rows ∧ rows.length = ((62 : ℤ) - 60).toNat + 1 :=
  c6_no_midrun_error_amended amrDec 60 62 (1 / 20) (1 / 100) rfl rfl rfl rfl
    (Or.inr ⟨1000, rfl⟩) (Or.inl ⟨2000, rfl⟩)

/-- C6 counterexample: a configuration obeying the documented interface
(§3 invariants hold, percentages entered as whole numbers per §6) on which
the computation raises `TypeError` mid-recurrence. -/
theorem c6_typeerror_counterexample :
    run_script sectionsWholePct6 = .error .typeError := by decide

/-- C7: the export quantization rounds half-up (ties away from zero): a raw
value of `12.345` quantized to 2 fractional digits yields `12.35`, not the
banker's-rounding result `12.34`. -/
theorem c7_round_half_up :
    quantize 2 (12345 / 1000 : ℚ) = 1235 / 100 ∧
    quantize 2 (12345 / 1000 : ℚ) ≠ 1234 / 100 := by decide

/-- C8: a missing `Values` section, or any missing required key, makes the
script fail with the validation error naming the missing section or (the
first) missing key, before any computation, producing no output. -/
theorem c8_missing_key_fails (sections : List (String × List (String × String))) :
    (lookupKV sections "Values" = none →
      run_script sections = .error (.missingSection "Values")) ∧
    (∀ vals, lookupKV sections "Values" = some vals →
      ∀ key, key ∈ requiredKeys → lookupKV vals key = none →
        ∃ k, k ∈ requiredKeys ∧ lookupKV vals k = none ∧
          run_script sections = .error (.missingKey k) ∧
          ∀ out, run_script sections ≠ .ok out) := by
  constructor
  · intro h
    simp [run_script, validate_config, h]
  · intro vals hsec key hkmem hknone
    have hfind : ∃ k, requiredKeys.find? (fun k => (lookupKV vals k).isNone) = some k := by
      cases hfind0 : requiredKeys.find? (fun k => (lookupKV vals k).isNone) with
      | some k => exact ⟨k, rfl⟩
      | none =>
        have hnot := List.find?_eq_none.1 hfind0 key hkmem
        simp [hknone] at hnot
    obtain ⟨k, hk⟩ := hfind
    have hkmem2 : k ∈ requiredKeys := List.mem_of_find?_eq_some hk
    have hknone2 : lookupKV vals k = none := by
      have hkpred := List.find?_some hk
      simpa [Option.isNone_iff_eq_none] using hkpred
    have hrun : run_script sections = .error (.missingKey k) := by
      simp [run_script, validate_config, hsec, hk]
    exact ⟨k, hkmem2, hknone2, hrun, fun out h0 => by
      rw [hrun] at h0
      exact Except.noConfusion h0⟩

/-- Witness for C8: the spec §8 scenario with `annual_income` missing. -/
theorem c8_missing_key_fails_witness :
    lookupKV sectionsMissingIncome "Values" = some valsMissingIncome ∧
    "annual_income" ∈ requiredKeys ∧
    lookupKV valsMissingIncome "annual_income" = none ∧
    ∃ k, k ∈ requiredKeys ∧ lookupKV valsMissingIncome k = none ∧
      run_script sectionsMissingIncome = .error (.missingKey k) ∧
      ∀ out, run_script sectionsMissingIncome ≠ .ok out :=
  ⟨by decide, by decide, by decide,
    (c8_missing_key_fails sectionsMissingIncome).2 valsMissingIncome (by decide)
      "annual_income" (by decide) (by decide)⟩

/-- C9 (code bug): the claim — and the source's own comment "actual strings
will stay as strings" — say a value that parses neither as decimal nor as
int is retained as a string; that holds for values without a decimal point
(`int()` raises `ValueError`, which is caught), and comma-stripping works as
claimed, but a dot-containing non-numeric value makes `Decimal()` raise
`decimal.InvalidOperation`, which is not a `ValueError`, so construction
fails instead of retaining the string. -/
theorem c9_invalid_decimal_string_raises :
    parse_value "J. Smith" = .error .invalidOperation ∧
    run_script sectionsDotName = .error .invalidOperation ∧
    parse_value "1,000,000" = .ok (.int 1000000) ∧
    parse_value "client" = .ok (.str "client") := by decide

/-- C10: the export view rounds every cell independently, so the exported
ending fund value is the half-up 2-digit rounding of the exact ending value;
consequently there is a valid configuration whose exported row fails the
recombination identity
`ending = starting + growth - annual_income - charges`. -/
theorem c10_export_rounding_identity_break :
    (∀ (cfg : ProjectionConfig) (k : ℕ),
      ((export_view cfg)[k]?).map ProjectionRow.ending_fund_value =
        ((series cfg)[k]?).map fun r => quantize 2 r.ending_fund_value) ∧
    (∃ (cfg : ProjectionConfig) (r : ProjectionRow), ValidProjectionConfig cfg ∧
      (export_view cfg)[0]? = some r ∧
      r.ending_fund_value ≠
        r.pension_fund_value + r.projected_growth - cfg.annual_income - r.charges) := by
  constructor
  · intro cfg k
    simp only [export_view, List.getElem?_map]
    cases (series cfg)[k]? <;> rfl
  · exact ⟨cfgTie,
      { Age := 60, pension_fund_value := 100001 / 100, projected_growth := 50
        charges := 0, ending_fund_value := 1050 },
      by decide, by decide, by decide⟩

end CreateGraph
